import Mathlib

/-!
Verification of the trend-analysis and recommendation logic of the
`stock_api` repository (`app/services/stock_analysis_service.py`).

The service's numeric inputs (RSI value, MACD pair, Bollinger Bands) are
modelled over ℚ; a provider reading that Python returns as `None` is an
`Option` that is `none`.  News retrieval either fails (the provider returns
a dict containing an `"error"` key) or yields a list of classified
headlines, each carrying a `sentiment` string.
-/

namespace StockApi

/-- A MACD reading, mirroring the dict `{"macd": ..., "signal": ...}`
returned by `get_macd`. -/
structure MacdReading where
  macd : ℚ
  signal : ℚ
deriving DecidableEq, Repr

/-- A Bollinger Bands reading, mirroring the dict
`{"middle": ..., "upper": ..., "lower": ...}` returned by
`get_bollinger_bands`. -/
structure BollingerBands where
  middle : ℚ
  upper : ℚ
  lower : ℚ
deriving DecidableEq, Repr

/-- The three indicator readings `analyze_trend` fetches from the provider;
each is `none` when the provider returned Python `None`. -/
structure IndicatorSnapshot where
  rsi : Option ℚ
  macd : Option MacdReading
  bbands : Option BollingerBands
deriving DecidableEq, Repr

/-- One classified headline: the `{"sentiment": ...}` field consulted by
`recommend_action`. -/
structure NewsItem where
  sentiment : String
deriving DecidableEq, Repr

/-- Result of `get_news_sentiment`: either an error indicator (a dict with
an `"error"` key) or a list of classified headlines. -/
inductive NewsResult where
  | fetchError : NewsResult
  | headlines : List NewsItem → NewsResult
deriving DecidableEq, Repr

/-- RSI part of the score accumulation in `analyze_trend`:
`if rsi < 30: trend_score += 1` then `if rsi > 70: trend_score -= 1`. -/
def rsiScore (rsi : ℚ) : Int :=
  (if rsi < 30 then 1 else 0) + (if rsi > 70 then -1 else 0)

/-- MACD part of the score accumulation in `analyze_trend`:
`if macd["macd"] > macd["signal"]: trend_score += 1 else: trend_score -= 1`. -/
def macdScore (m : MacdReading) : Int :=
  if m.macd > m.signal then 1 else -1

/-- Bollinger part of the score accumulation in `analyze_trend`:
`if bbands["middle"] > bbands["upper"]: trend_score -= 1
elif bbands["middle"] < bbands["lower"]: trend_score += 1`. -/
def bbandsScore (b : BollingerBands) : Int :=
  if b.middle > b.upper then -1
  else if b.middle < b.lower then 1
  else 0

/-- The accumulated `trend_score` of `analyze_trend` once all three
readings are present: starts at 0 and adds the three contributions in
source order. -/
def trend_score (rsi : ℚ) (m : MacdReading) (b : BollingerBands) : Int :=
  rsiScore rsi + macdScore m + bbandsScore b

/-- Final classification chain of `analyze_trend` over the score. -/
def classifyTrend (score : Int) : String :=
  if score ≥ 2 then "strong uptrend"
  else if score = 1 then "uptrend"
  else if score = 0 then "sideways"
  else if score = -1 then "downtrend"
  else "strong downtrend"

/-- `StockAnalysisService.analyze_trend`, as a function of the three
provider readings: returns `"unknown"` if any reading is `None`, otherwise
classifies the accumulated score. -/
def analyze_trend (s : IndicatorSnapshot) : String :=
  match s.rsi, s.macd, s.bbands with
  | some rsi, some m, some b => classifyTrend (trend_score rsi m b)
  | _, _, _ => "unknown"

/-- `sum(1 for n in news if n["sentiment"] == label)`. -/
def countSentiment (items : List NewsItem) (label : String) : Nat :=
  (items.filter (fun n => n.sentiment = label)).length

/-- `sentiment_score = positive - negative` in `recommend_action`. -/
def sentiment_score (items : List NewsItem) : Int :=
  (countSentiment items "positive" : Int) - (countSentiment items "negative" : Int)

/-- `StockAnalysisService.recommend_action`, as a function of the indicator
snapshot (from which the trend is computed) and the news result. -/
def recommend_action (s : IndicatorSnapshot) (news : NewsResult) : String :=
  let trend := analyze_trend s
  match news with
  | NewsResult.fetchError => "HOLD"
  | NewsResult.headlines items =>
    let score := sentiment_score items
    if (trend = "strong uptrend" ∨ trend = "uptrend") ∧ score > 0 then "BUY"
    else if (trend = "strong downtrend" ∨ trend = "downtrend") ∧ score < 0 then "SELL"
    else "HOLD"

/-! ## Helper lemmas -/

/-- `classifyTrend` only ever produces one of the five trend labels, so it
never collides with the sentinel `"unknown"`. -/
theorem classifyTrend_ne_unknown (n : Int) : classifyTrend n ≠ "unknown" := by
  unfold classifyTrend
  split_ifs <;> decide

/-- Characterisation of `classifyTrend` at each of the five labels. -/
theorem classifyTrend_eq_iff (n : Int) :
    (classifyTrend n = "strong uptrend" ↔ 2 ≤ n) ∧
    (classifyTrend n = "uptrend" ↔ n = 1) ∧
    (classifyTrend n = "sideways" ↔ n = 0) ∧
    (classifyTrend n = "downtrend" ↔ n = -1) ∧
    (classifyTrend n = "strong downtrend" ↔ n ≤ -2) := by
  unfold classifyTrend
  split_ifs with h1 h2 h3 h4 <;>
    refine ⟨?_, ?_, ?_, ?_, ?_⟩ <;> simp <;> omega

/-- A headline classified neither `"positive"` nor `"negative"` (e.g.
`"neutral"`) leaves the net sentiment unchanged. -/
theorem sentiment_score_neutral (x : NewsItem) (items : List NewsItem)
    (hp : x.sentiment ≠ "positive") (hn : x.sentiment ≠ "negative") :
    sentiment_score (x :: items) = sentiment_score items := by
  unfold sentiment_score countSentiment
  simp [List.filter_cons, hp, hn]

/-! ## Claims -/

/-- C2: `analyze_trend` returns `"unknown"` exactly when at least one of
the RSI, MACD, or Bollinger readings is absent; when any is absent the
result is `"unknown"` regardless of the present fields, and no partial
scoring occurs. -/
theorem analyze_trend_unknown_iff (s : IndicatorSnapshot) :
    analyze_trend s = "unknown" ↔
      (s.rsi = none ∨ s.macd = none ∨ s.bbands = none) := by
  obtain ⟨r, m, b⟩ := s
  cases r <;> cases m <;> cases b <;>
    simp [analyze_trend, classifyTrend_ne_unknown]

/-- C4: when news retrieval signals a fetch failure, `recommend_action`
returns `"HOLD"` irrespective of the trend computed from the indicators. -/
theorem recommend_action_news_error (s : IndicatorSnapshot) :
    recommend_action s NewsResult.fetchError = "HOLD" := rfl

/-- C8: for every combination of indicator readings (each present or
absent) and news result (headline list or error indicator),
`recommend_action` is total and returns exactly one of the three labels
`"BUY"`, `"SELL"`, `"HOLD"`. -/
theorem recommend_action_total (s : IndicatorSnapshot) (news : NewsResult) :
    recommend_action s news = "BUY" ∨ recommend_action s news = "SELL" ∨
      recommend_action s news = "HOLD" := by
  cases news with
  | fetchError => simp [recommend_action]
  | headlines items =>
      unfold recommend_action
      dsimp only
      split_ifs <;> simp

/-- C9: `analyze_trend` and `recommend_action` are pure functions of their
inputs: two evaluations on equal readings yield equal labels, with no
hidden state (the embedding is stateless because the source mutates none). -/
theorem analyze_trend_deterministic (s t : IndicatorSnapshot)
    (news : NewsResult) (h : s = t) :
    analyze_trend s = analyze_trend t ∧
      recommend_action s news = recommend_action t news := by
  subst h; exact ⟨rfl, rfl⟩

/-- Witness for C9 at a concrete snapshot and news list. -/
theorem analyze_trend_deterministic_witness :
    analyze_trend ⟨some 25, some ⟨1, 1/2⟩, some ⟨10, 12, 8⟩⟩ =
        analyze_trend ⟨some 25, some ⟨1, 1/2⟩, some ⟨10, 12, 8⟩⟩ ∧
      recommend_action ⟨some 25, some ⟨1, 1/2⟩, some ⟨10, 12, 8⟩⟩
          (NewsResult.headlines [⟨"positive"⟩]) =
        recommend_action ⟨some 25, some ⟨1, 1/2⟩, some ⟨10, 12, 8⟩⟩
          (NewsResult.headlines [⟨"positive"⟩]) :=
  analyze_trend_deterministic _ _ (NewsResult.headlines [⟨"positive"⟩]) rfl

/-- C10: when news retrieval succeeds with an empty headline list, the
positive and negative counts are both 0, the net sentiment is 0, and
`recommend_action` returns `"HOLD"` for every trend label. -/
theorem recommend_action_empty_news (s : IndicatorSnapshot) :
    countSentiment [] "positive" = 0 ∧ countSentiment [] "negative" = 0 ∧
      sentiment_score [] = 0 ∧
      recommend_action s (NewsResult.headlines []) = "HOLD" := by
  refine ⟨rfl, rfl, rfl, ?_⟩
  unfold recommend_action
  dsimp only
  split_ifs with h1 h2
  · exact absurd h1.2 (by decide)
  · exact absurd h2.2 (by decide)
  · rfl

/-- C5: for every MACD reading the contribution to `trend_score` is `+1`
exactly when `macd > signal` and `−1` exactly otherwise (including
equality); it is never `0`. -/
theorem macd_contribution (m : MacdReading) :
    (m.signal < m.macd ↔ macdScore m = 1) ∧
    (m.macd ≤ m.signal ↔ macdScore m = -1) ∧
    macdScore m ≠ 0 := by
  unfold macdScore
  split_ifs with h
  · refine ⟨⟨fun _ => rfl, fun _ => h⟩, ?_, by decide⟩
    exact ⟨fun hle => absurd h (not_lt.mpr hle), fun h1 => absurd h1 (by decide)⟩
  · refine ⟨⟨fun hlt => absurd hlt h, fun h1 => absurd h1 (by decide)⟩, ?_, by decide⟩
    exact ⟨fun _ => rfl, fun _ => not_lt.mp h⟩

/-- Witness for C5 at `macd = signal`: the equality case contributes `−1`. -/
theorem macd_contribution_witness : macdScore ⟨1, 1⟩ = -1 :=
  (macd_contribution ⟨1, 1⟩).2.1.mp le_rfl

/-- C6: the RSI contribution to `trend_score` is `+1` when `rsi < 30`,
`−1` when `rsi > 70`, `0` otherwise (including the boundaries 30 and 70);
the two conditions can never both hold, so the contribution is always
exactly one of `−1`, `0`, `+1`. -/
theorem rsi_contribution (r : ℚ) :
    (r < 30 → rsiScore r = 1) ∧
    (70 < r → rsiScore r = -1) ∧
    (30 ≤ r → r ≤ 70 → rsiScore r = 0) ∧
    ¬(r < 30 ∧ 70 < r) ∧
    (rsiScore r = -1 ∨ rsiScore r = 0 ∨ rsiScore r = 1) := by
  unfold rsiScore
  split_ifs with h1 h2 h2 <;>
    refine ⟨fun h => ?_, fun h => ?_, fun ha hb => ?_, fun h => ?_, ?_⟩ <;>
      first
        | decide
        | linarith

/-- Witness for C6 at the boundary `rsi = 30`: contribution `0`. -/
theorem rsi_contribution_witness : rsiScore 30 = 0 :=
  (rsi_contribution 30).2.2.1 le_rfl (by norm_num)

/-- C7 counterexample: the claim says the Bollinger contribution is `+1`
whenever `middle < lower`, but with an inverted band (`upper < lower`) the
`middle > upper` branch fires first: at `middle = 10, upper = 5,
lower = 20` we have `middle < lower` yet the contribution is `−1`. -/
theorem bbands_contribution_counterexample :
    (BollingerBands.mk 10 5 20).middle < (BollingerBands.mk 10 5 20).lower ∧
      bbandsScore (BollingerBands.mk 10 5 20) = -1 ∧
      bbandsScore (BollingerBands.mk 10 5 20) ≠ 1 := by
  refine ⟨by norm_num, ?_, ?_⟩ <;> decide

/-- C7 (amended): the Bollinger contribution is `−1` when
`middle > upper`; `+1` when `middle > upper` fails and `middle < lower`
(the `elif` ordering); `0` otherwise; the comparison is middle band
against upper/lower band, and the contribution is always one of `−1`, `0`,
`+1`. -/
theorem bbands_contribution (b : BollingerBands) :
    (b.upper < b.middle → bbandsScore b = -1) ∧
    (b.middle ≤ b.upper → b.middle < b.lower → bbandsScore b = 1) ∧
    (b.middle ≤ b.upper → b.lower ≤ b.middle → bbandsScore b = 0) ∧
    (bbandsScore b = -1 ∨ bbandsScore b = 0 ∨ bbandsScore b = 1) := by
  unfold bbandsScore
  split_ifs with h1 h2 <;>
    refine ⟨fun h => ?_, fun ha hb => ?_, fun ha hb => ?_, ?_⟩ <;>
      first
        | decide
        | rfl
        | linarith

/-- Witness for C7 at a normally ordered band with the middle strictly
below the lower band: contribution `+1`. -/
theorem bbands_contribution_witness : bbandsScore ⟨5, 12, 8⟩ = 1 :=
  (bbands_contribution ⟨5, 12, 8⟩).2.1 (by norm_num) (by norm_num)

/-- C3 counterexample: the claim bounds `trend_score` by `+2`, but
`rsi = 25` (oversold, `+1`), `macd = 1 > signal = 1/2` (`+1`) and
`middle = 5 < lower = 8` (`+1`) give score `3`, outside `−3..+2`; so
`"strong uptrend"` is not returned only at score exactly `2`. -/
theorem trend_score_range_counterexample :
    trend_score 25 ⟨1, 1/2⟩ ⟨5, 12, 8⟩ = 3 ∧
      ¬trend_score 25 ⟨1, 1/2⟩ ⟨5, 12, 8⟩ ≤ 2 ∧
      analyze_trend ⟨some 25, some ⟨1, 1/2⟩, some ⟨5, 12, 8⟩⟩ =
        "strong uptrend" := by
  refine ⟨?_, ?_, ?_⟩ <;>
    norm_num [analyze_trend, trend_score, rsiScore, macdScore, bbandsScore,
      classifyTrend]

/-- C3 (amended): with all readings present, `analyze_trend` classifies the
summed `trend_score` by thresholds (`≥ 2 ↦ "strong uptrend"`,
`1 ↦ "uptrend"`, `0 ↦ "sideways"`, `−1 ↦ "downtrend"`,
`≤ −2 ↦ "strong downtrend"`); the score always lies in `−3..+3` (not
`−3..+2`), so `"strong uptrend"` is returned exactly when the score is `2`
or `3`; the concrete instance `rsi = 25, macd = 1, signal = 1/2,
middle = 10, upper = 12, lower = 8` scores `2` and yields
`"strong uptrend"`. -/
theorem analyze_trend_classification (s : IndicatorSnapshot) (r : ℚ)
    (m : MacdReading) (b : BollingerBands)
    (hr : s.rsi = some r) (hm : s.macd = some m) (hb : s.bbands = some b) :
    analyze_trend s = classifyTrend (trend_score r m b) ∧
    (-3 : Int) ≤ trend_score r m b ∧ trend_score r m b ≤ 3 ∧
    (analyze_trend s = "strong uptrend" ↔ 2 ≤ trend_score r m b) ∧
    (analyze_trend s = "uptrend" ↔ trend_score r m b = 1) ∧
    (analyze_trend s = "sideways" ↔ trend_score r m b = 0) ∧
    (analyze_trend s = "downtrend" ↔ trend_score r m b = -1) ∧
    (analyze_trend s = "strong downtrend" ↔ trend_score r m b ≤ -2) ∧
    trend_score 25 ⟨1, 1/2⟩ ⟨10, 12, 8⟩ = 2 ∧
    analyze_trend ⟨some 25, some ⟨1, 1/2⟩, some ⟨10, 12, 8⟩⟩ =
      "strong uptrend" := by
  obtain ⟨sr, sm, sb⟩ := s
  cases hr; cases hm; cases hb
  have heq : analyze_trend ⟨some r, some m, some b⟩ =
      classifyTrend (trend_score r m b) := rfl
  have hbound : (-3 : Int) ≤ trend_score r m b ∧ trend_score r m b ≤ 3 := by
    unfold trend_score rsiScore macdScore bbandsScore
    split_ifs <;> omega
  obtain ⟨hc1, hc2, hc3, hc4, hc5⟩ := classifyTrend_eq_iff (trend_score r m b)
  refine ⟨heq, hbound.1, hbound.2, ?_, ?_, ?_, ?_, ?_,
    by norm_num [trend_score, rsiScore, macdScore, bbandsScore], ?_⟩
  · rw [heq]; exact hc1
  · rw [heq]; exact hc2
  · rw [heq]; exact hc3
  · rw [heq]; exact hc4
  · rw [heq]; exact hc5
  · norm_num [analyze_trend, trend_score, rsiScore, macdScore, bbandsScore,
      classifyTrend]

/-- Witness for C3 (amended) at the spec's concrete snapshot. -/
theorem analyze_trend_classification_witness :
    analyze_trend ⟨some 25, some ⟨1, 1/2⟩, some ⟨10, 12, 8⟩⟩ =
      classifyTrend (trend_score 25 ⟨1, 1/2⟩ ⟨10, 12, 8⟩) :=
  (analyze_trend_classification ⟨some 25, some ⟨1, 1/2⟩, some ⟨10, 12, 8⟩⟩
    25 ⟨1, 1/2⟩ ⟨10, 12, 8⟩ rfl rfl rfl).1

/-- C1: when news retrieval succeeds with a list of classified headlines,
`recommend_action` returns `"BUY"` iff the trend is `"strong uptrend"` or
`"uptrend"` and the net sentiment (positives minus negatives; neutral and
other labels contribute nothing) is positive; `"SELL"` iff the trend is
`"strong downtrend"` or `"downtrend"` and the net is negative; `"HOLD"` in
every other case; BUY and SELL are mutually exclusive and neither occurs
when the trend is `"sideways"` or `"unknown"`. -/
theorem recommend_action_spec (s : IndicatorSnapshot) (items : List NewsItem) :
    sentiment_score items =
      (countSentiment items "positive" : Int) -
        (countSentiment items "negative" : Int) ∧
    (∀ x : NewsItem, x.sentiment ≠ "positive" → x.sentiment ≠ "negative" →
      sentiment_score (x :: items) = sentiment_score items) ∧
    (recommend_action s (NewsResult.headlines items) = "BUY" ↔
      ((analyze_trend s = "strong uptrend" ∨ analyze_trend s = "uptrend") ∧
        sentiment_score items > 0)) ∧
    (recommend_action s (NewsResult.headlines items) = "SELL" ↔
      ((analyze_trend s = "strong downtrend" ∨
          analyze_trend s = "downtrend") ∧
        sentiment_score items < 0)) ∧
    (recommend_action s (NewsResult.headlines items) = "HOLD" ↔
      ¬(((analyze_trend s = "strong uptrend" ∨ analyze_trend s = "uptrend") ∧
          sentiment_score items > 0) ∨
        ((analyze_trend s = "strong downtrend" ∨
            analyze_trend s = "downtrend") ∧
          sentiment_score items < 0))) ∧
    ¬(recommend_action s (NewsResult.headlines items) = "BUY" ∧
      recommend_action s (NewsResult.headlines items) = "SELL") ∧
    (analyze_trend s = "sideways" ∨ analyze_trend s = "unknown" →
      recommend_action s (NewsResult.headlines items) = "HOLD") := by
  refine ⟨rfl, fun x hp hn => sentiment_score_neutral x items hp hn, ?_⟩
  unfold recommend_action
  dsimp only
  split_ifs with h1 h2
  · obtain ⟨hu, hpos⟩ := h1
    refine ⟨⟨fun _ => ⟨hu, hpos⟩, fun _ => rfl⟩, ⟨fun h => absurd h (by decide),
        fun hc => ?_⟩, ⟨fun h => absurd h (by decide),
        fun hc => absurd (Or.inl ⟨hu, hpos⟩) hc⟩,
        fun h => absurd h.2 (by decide), fun h => ?_⟩
    · obtain ⟨hd, -⟩ := hc
      rcases hu with hu | hu <;> rcases hd with hd | hd <;> rw [hu] at hd <;>
        exact absurd hd (by decide)
    · rcases hu with hu | hu <;> rcases h with h | h <;> rw [hu] at h <;>
        exact absurd h (by decide)
  · obtain ⟨hd, hneg⟩ := h2
    refine ⟨⟨fun h => absurd h (by decide), fun hc => absurd hc h1⟩,
        ⟨fun _ => ⟨hd, hneg⟩, fun _ => rfl⟩, ⟨fun h => absurd h (by decide),
        fun hc => absurd (Or.inr ⟨hd, hneg⟩) hc⟩,
        fun h => absurd h.1 (by decide), fun h => ?_⟩
    rcases hd with hd | hd <;> rcases h with h | h <;> rw [hd] at h <;>
      exact absurd h (by decide)
  · exact ⟨⟨fun h => absurd h (by decide), fun hc => absurd hc h1⟩,
      ⟨fun h => absurd h (by decide), fun hc => absurd hc h2⟩,
      ⟨fun _ => fun hc => hc.elim h1 h2, fun _ => rfl⟩,
      fun h => absurd h.1 (by decide), fun _ => rfl⟩

/-- Witness for C1 at a sideways snapshot with one positive headline:
the recommendation is `"HOLD"`. -/
theorem recommend_action_spec_witness :
    recommend_action ⟨some 50, some ⟨2, 1⟩, some ⟨13, 12, 8⟩⟩
      (NewsResult.headlines [⟨"positive"⟩]) = "HOLD" :=
  (recommend_action_spec ⟨some 50, some ⟨2, 1⟩, some ⟨13, 12, 8⟩⟩
      [⟨"positive"⟩]).2.2.2.2.2.2
    (Or.inl (by norm_num [analyze_trend, trend_score, rsiScore, macdScore,
      bbandsScore, classifyTrend]))

end StockApi
